import Mathlib

/-!
Shallow embedding of `src/synology_api/core_certificate.py` (the `Certificate`
class of the synology-api client) and verification of its specification.

Network transport, session state and the filesystem are external collaborators:
every function here takes the data the Python code would obtain from them
(registry snapshots, HTTP responses, resolved paths) as explicit arguments and
returns the request parameters the Python code would submit, so that the
submitted payloads are inspectable values.
-/

/-! ## JSON serialization (model of Python `json.dumps` on the shapes used) -/

/-- Lowercase hexadecimal digit, as used by Python's `\uXXXX` escapes. -/
def hexDigitChar (n : Nat) : Char :=
  if n < 10 then Char.ofNat (48 + n) else Char.ofNat (87 + n)

/-- Four-digit lowercase hexadecimal rendering of `n % 65536`. -/
def hex4 (n : Nat) : String :=
  String.mk [hexDigitChar (n / 4096 % 16), hexDigitChar (n / 256 % 16),
             hexDigitChar (n / 16 % 16), hexDigitChar (n % 16)]

/-- Escape of a single character inside a JSON string literal, following
Python's `json.dumps` default (`ensure_ascii=True`): backslash, quote and
every character outside printable ASCII are escaped; the short escapes
`\b \f \n \r \t` are used where they exist, `\uXXXX` (with surrogate pairs
above U+FFFF) otherwise. -/
def jsonEscapeChar (c : Char) : String :=
  if c = '"' then "\\\""
  else if c = '\\' then "\\\\"
  else if c = '\x08' then "\\b"
  else if c = '\x0c' then "\\f"
  else if c = '\n' then "\\n"
  else if c = '\r' then "\\r"
  else if c = '\t' then "\\t"
  else if 32 ≤ c.toNat ∧ c.toNat ≤ 126 then String.mk [c]
  else if c.toNat < 65536 then "\\u" ++ hex4 c.toNat
  else
    "\\u" ++ hex4 (55296 + (c.toNat - 65536) / 1024)
      ++ "\\u" ++ hex4 (56320 + (c.toNat - 65536) % 1024)

/-- JSON string literal for `s`: quotes around the escaped characters. -/
def jsonEscapeString (s : String) : String :=
  "\"" ++ String.join (s.data.map jsonEscapeChar) ++ "\""

/-- JSON values appearing in this module's payloads: the service descriptors
and decoded response dictionaries only ever hold strings and booleans. -/
inductive JVal where
  | jstr (s : String)
  | jbool (b : Bool)
deriving DecidableEq

/-- Serialization of a primitive JSON value. -/
def dumpJVal : JVal → String
  | .jstr s => jsonEscapeString s
  | .jbool b => if b then "true" else "false"

/-- `json.dumps` of a flat string-keyed object with the given item and
key-value separators, fields in insertion order (Python dicts preserve it). -/
def dumpObj (itemSep kvSep : String) (fields : List (String × JVal)) : String :=
  "\x7b" ++ String.intercalate itemSep
      (fields.map (fun kv => jsonEscapeString kv.1 ++ kvSep ++ dumpJVal kv.2))
    ++ "\x7d"

/-- `json.dumps([... list of strings ...])` with Python's default separators
(`", "` between items). -/
def dumpStrList (l : List String) : String :=
  "[" ++ String.intercalate ", " (l.map jsonEscapeString) ++ "]"

/-- `json.dumps([{"service": serviceFields, "old_id": old_id, "id": cert_id}],
separators=(',', ':'))`: the compact single-element-list settings blob built
in `set_certificate_for_service`. -/
def dumpSettingsPayload (serviceFields : List (String × JVal))
    (old_id cert_id : String) : String :=
  "[\x7b" ++ jsonEscapeString "service" ++ ":" ++ dumpObj "," ":" serviceFields
    ++ "," ++ jsonEscapeString "old_id" ++ ":" ++ jsonEscapeString old_id
    ++ "," ++ jsonEscapeString "id" ++ ":" ++ jsonEscapeString cert_id
    ++ "\x7d]"

/-! ## Data model -/

/-- One entry of a certificate's `services` list; the code only ever reads its
`display_name` key. -/
structure ServiceEntry where
  display_name : String
deriving DecidableEq

/-- A certificate as it appears in the registry snapshot returned by
`list_cert()['data']['certificates']`: the code reads `id` and `services`. -/
structure Cert where
  id : String
  services : List ServiceEntry
deriving DecidableEq

/-- The `str | list[str]` union accepted by `delete_certificate`'s `ids`. -/
inductive StrOrList where
  | str (s : String)
  | list (l : List String)
deriving DecidableEq

/-- A binary file part of the multipart upload: filename and content type
(the open file handle itself is external). -/
structure FilePart where
  filename : String
  contentType : String
deriving DecidableEq

/-- An HTTP response whose body has already been decoded as a JSON object
(`r.json()`), as consumed by upload and the binding submission. -/
structure HttpResponse where
  status_code : Nat
  body : List (String × JVal)
deriving DecidableEq

/-- A raw HTTP response: status and raw body bytes (`r.content`), as consumed
by `export_cert`. -/
structure RawResponse where
  status_code : Nat
  content : List Nat
deriving DecidableEq

/-- Model of `io.BytesIO(content)`: the full byte content plus the stream
position, which `BytesIO` initializes to 0. -/
structure BytesIOBuf where
  data : List Nat
  pos : Nat
deriving DecidableEq

/-- Outcome of running a Python function: it either returns a value or raises
an exception with the given name. -/
inductive PyOutcome (α : Type) where
  | returns (val : α)
  | raises (exc : String)
deriving DecidableEq

/-! ## Python truthiness of the optional arguments -/

/-- Truthiness of an optional string (`if cert_id:`): present and non-empty. -/
def optStrTruthy (o : Option String) : Prop :=
  match o with
  | some s => s ≠ ""
  | none => False

instance (o : Option String) : Decidable (optStrTruthy o) :=
  match o with
  | some s => inferInstanceAs (Decidable (s ≠ ""))
  | none => inferInstanceAs (Decidable False)

/-- Truthiness of the optional `ids` argument (`if ids:`): a non-empty string
or a non-empty list. -/
def idsTruthy (o : Option StrOrList) : Prop :=
  match o with
  | some (.str s) => s ≠ ""
  | some (.list l) => l ≠ []
  | none => False

instance (o : Option StrOrList) : Decidable (idsTruthy o) :=
  match o with
  | some (.str s) => inferInstanceAs (Decidable (s ≠ ""))
  | some (.list l) => inferInstanceAs (Decidable (l ≠ []))
  | none => inferInstanceAs (Decidable False)

/-- `json.dumps` applied to the `str | list[str]` union. -/
def dumpStrOrList : StrOrList → String
  | .str s => jsonEscapeString s
  | .list l => dumpStrList l

/-! ## Registry accessor: `_base_certificate_methods` and its wrappers -/

/-- Result of `_base_certificate_methods`: either the early error-string
return for an unsupported method, or a dispatched request carrying the
`req_param` form fields (the `request_data` call itself is external). -/
inductive BaseMethodResult where
  | unsupported (msg : String)
  | request (req_param : List (String × String))
deriving DecidableEq

/-- The `available_method` list of `_base_certificate_methods`. -/
def available_method : List String := ["list", "set", "delete"]

/-- `_base_certificate_methods(method, cert_id, ids)`: rejects methods outside
`available_method` with the literal error string; otherwise builds `req_param`
with `version` and `method`, adds the `set` fields when `method == 'set'` and
`cert_id` is truthy (`as_default`, the literal two-quote `desc`, and the id
wrapped in quote characters), else adds `ids` as a JSON-dumped string when
`method == 'delete'` and `ids` is truthy, and dispatches. -/
def base_certificate_methods (method : String) (cert_id : Option String)
    (ids : Option StrOrList) : BaseMethodResult :=
  if method ∉ available_method then
    .unsupported ("Method " ++ method ++ " no supported.")
  else
    let req_param := [("version", "1"), ("method", method)]
    let req_param :=
      if method = "set" ∧ optStrTruthy cert_id then
        req_param ++ [("as_default", "true"), ("desc", "\"\""),
                      ("id", "\"" ++ (cert_id.getD "") ++ "\"")]
      else if method = "delete" ∧ idsTruthy ids then
        req_param ++ [("ids", dumpStrOrList (ids.getD (.list [])))]
      else req_param
    .request req_param

/-- `list_cert()`: dispatches the `list` method with no extra fields. -/
def list_cert_request : BaseMethodResult :=
  base_certificate_methods "list" none none

/-- `set_default_cert(cert_id)`. -/
def set_default_cert (cert_id : String) : BaseMethodResult :=
  base_certificate_methods "set" (some cert_id) none

/-- `delete_certificate(ids)`: a bare string is first normalized to a
one-element list, then dispatched through the `delete` method. -/
def delete_certificate (ids : StrOrList) : BaseMethodResult :=
  let idsList : StrOrList :=
    match ids with
    | .str s => .list [s]
    | .list l => .list l
  base_certificate_methods "delete" none (some idsList)

/-! ## Certificate transfer: `upload_cert` and `export_cert` -/

/-- The content type attached to each binary part of the upload. -/
def x_x509 : String := "application/x-x509-ca-cert"

/-- What an `upload_cert` call submits and what it evaluates to: the scalar
`data` form fields, the multipart `files` (in dict insertion order), and the
value of the final `return r.status_code, r.json()`. -/
structure UploadOutcome where
  data_payload : List (String × String)
  files : List (String × FilePart)
  result : PyOutcome (Nat × List (String × JVal))
deriving DecidableEq

/-- `upload_cert(serv_key, ser_cert, ca_cert, set_as_default, cert_id, desc)`
given the response `resp` the server produces for the POST. `abspath` is the
external `os.path.abspath`; per Python truthiness a `None` or empty `ca_cert`
is normalized to `None` before resolution, so no `inter_cert` part is built
for it. The function body contains no raise statement: it always returns the
pair `(r.status_code, r.json())`. -/
def upload_cert (abspath : String → String) (serv_key ser_cert : String)
    (ca_cert : Option String) (set_as_default : Bool) (cert_id : Option String)
    (desc : Option String) (resp : HttpResponse) : UploadOutcome :=
  let serv_key := abspath serv_key
  let ser_cert := abspath ser_cert
  let ca_cert : Option String :=
    match ca_cert with
    | some s => if s ≠ "" then some (abspath s) else none
    | none => none
  let data_payload := [("id", cert_id.getD ""), ("desc", desc.getD ""),
                       ("as_default", if set_as_default then "true" else "")]
  let files := [("key", FilePart.mk serv_key x_x509),
                ("cert", FilePart.mk ser_cert x_x509)]
  let files :=
    match ca_cert with
    | some ca => if ca ≠ "" then files ++ [("inter_cert", FilePart.mk ca x_x509)]
                 else files
    | none => files
  { data_payload := data_payload, files := files,
    result := .returns (resp.status_code, resp.body) }

/-- `export_cert(cert_id)` given the raw response to the GET: on status 200 it
returns `BytesIO(result.content)` (the full body, position 0), on any other
status it falls through to the bare `return`, i.e. `None`; no path raises. -/
def export_cert (result : RawResponse) : PyOutcome (Option BytesIOBuf) :=
  if result.status_code = 200 then
    .returns (some (BytesIOBuf.mk result.content 0))
  else
    .returns none

/-! ## Service-binding coordinator: `set_certificate_for_service` -/

/-- Whether one certificate's `services` list contains an entry whose
`display_name` equals `service_name` (the inner `for service in
cert['services']` loop; its `break` only skips the remaining services of the
same certificate, whose id would be the same anyway). -/
def certMatches (service_name : String) (c : Cert) : Bool :=
  c.services.any (fun s => s.display_name == service_name)

/-- The outer `for cert in certs` loop, carrying the `old_certid` accumulator
(initialized to `""` by the caller): each matching certificate overwrites the
accumulator with its id, so the loop has last-match-wins semantics — there is
no `break` of the outer loop. -/
def scanServices (service_name : String) : List Cert → String → String
  | [], old_certid => old_certid
  | c :: rest, old_certid =>
      scanServices service_name rest
        (if certMatches service_name c then c.id else old_certid)

/-- The full scan of lines 265-271: `old_certid = ""` followed by the nested
loops over the registry snapshot. -/
def findOldCertId (certs : List Cert) (service_name : String) : String :=
  scanServices service_name certs ""

/-- The base service descriptor fields of `servicedatadict`, in dict insertion
order. -/
def dsmDesktopServiceFields : List (String × JVal) :=
  [("display_name", .jstr "DSM Desktop Service"),
   ("display_name_i18n", .jstr "common:web_desktop"),
   ("isPkg", .jbool false),
   ("owner", .jstr "root"),
   ("service", .jstr "default"),
   ("subscriber", .jstr "system")]

/-- The DSM7 extra fields of `servicedatadictdsm7`, in dict insertion order. -/
def dsmDesktopServiceDsm7Fields : List (String × JVal) :=
  [("multiple_cert", .jbool true), ("user_setable", .jbool true)]

/-- The `servicedatadict` lookup table: exactly one key is present; any other
`service_name` subscript would raise `KeyError` (modelled as `none`). -/
def servicedatadict (service_name : String) : Option (List (String × JVal)) :=
  if service_name = "DSM Desktop Service" then some dsmDesktopServiceFields
  else none

/-- The `servicedatadictdsm7` lookup table. -/
def servicedatadictdsm7 (service_name : String) : Option (List (String × JVal)) :=
  if service_name = "DSM Desktop Service" then some dsmDesktopServiceDsm7Fields
  else none

/-- The merged service descriptor
`{**servicedatadict[service_name], **(servicedatadictdsm7[service_name] if
(self.session._version == 7) else {})}`: the keys of the two fragments are
disjoint, so the dict merge is concatenation in order; the DSM7 fragment (and
its lookup) is only evaluated when the session version equals 7. -/
def serviceDescriptor (version : Nat) (service_name : String) :
    Option (List (String × JVal)) :=
  match servicedatadict service_name with
  | none => none
  | some base =>
      if version = 7 then
        match servicedatadictdsm7 service_name with
        | none => none
        | some extra => some (base ++ extra)
      else some base

/-- One POST performed by the binding submission: the `payloaddict` form
fields (`settings`, `api`, `version`, `method`) plus the `_sid` query
parameter of `paramdict`. -/
structure BindWrite where
  settings : String
  api : String
  version : String
  method : String
  sid : String
deriving DecidableEq

/-- The second component of `set_certificate_for_service`'s returned pair: the
already-bound branch returns a literal string message, every other return path
returns the decoded response dictionary `r.json()`. -/
inductive CertServiceResult where
  | message (s : String)
  | response (body : List (String × JVal))
deriving DecidableEq

/-- What one `set_certificate_for_service` call does: the list of write POSTs
it performed (empty or a singleton) and the returned
`(status, second-component)` pair. -/
structure BindOutcome where
  writes : List BindWrite
  status : Nat
  result : CertServiceResult
deriving DecidableEq

/-- The `api_name` of the binding endpoint. -/
def cert_service_api_name : String := "SYNO.Core.Certificate.Service"

/-- `set_certificate_for_service(cert_id, service_name)` given the registry
snapshot `certs` (the `list_cert()['data']['certificates']` read), the session
version, the endpoint's `minVersion`, the session id, and the response `resp`
the server produces for the POST. After the scan, if `old_certid == cert_id`
the call returns `(200, "Certificate already set, aborting")` without any
write; otherwise it builds the compact-JSON `settings` blob from the (version
dependent) service descriptor, `old_id` and `id`, POSTs it, and returns
`(r.status_code, r.json())`. An unrecognized `service_name` raises `KeyError`
at the descriptor lookup (modelled as `none`). -/
def set_certificate_for_service (certs : List Cert) (version minVersion : Nat)
    (sid : String) (resp : HttpResponse) (cert_id service_name : String) :
    Option BindOutcome :=
  let old_certid := findOldCertId certs service_name
  if old_certid = cert_id then
    some { writes := [], status := 200,
           result := .message "Certificate already set, aborting" }
  else
    match serviceDescriptor version service_name with
    | none => none
    | some fields =>
        let w : BindWrite :=
          { settings := dumpSettingsPayload fields old_certid cert_id,
            api := cert_service_api_name,
            version := toString minVersion,
            method := "set",
            sid := sid }
        some { writes := [w], status := resp.status_code,
               result := .response resp.body }

/-! ## Spec-side predicates used to state the claims -/

/-- A key is present among an object's fields. -/
def hasKey (fields : List (String × JVal)) (k : String) : Bool :=
  fields.any (fun kv => kv.1 == k)

/-- A named part is present among the multipart files. -/
def hasFilePart (files : List (String × FilePart)) (k : String) : Bool :=
  files.any (fun kv => kv.1 == k)

/-- `prevId` is "the ID of the certificate currently bound to `service_name`,
or the empty string if none is bound" in the snapshot `certs`: either some
certificate matches and every matching certificate carries id `prevId` (the
registry invariant allows at most one), or none matches and `prevId` is
empty. -/
def prevIdSpec (certs : List Cert) (service_name : String) (prevId : String) :
    Prop :=
  ((∃ c ∈ certs, certMatches service_name c = true) ∧
    ∀ c ∈ certs, certMatches service_name c = true → c.id = prevId)
  ∨ ((∀ c ∈ certs, certMatches service_name c = false) ∧ prevId = "")

/-! ## Helper lemmas about the registry scan -/

/-- A scan over certificates none of which matches leaves the accumulator
unchanged. -/
theorem scanServices_no_match (service_name : String) :
    ∀ (certs : List Cert) (acc : String),
      (∀ c ∈ certs, certMatches service_name c = false) →
      scanServices service_name certs acc = acc := by
  intro certs
  induction certs with
  | nil => intro acc _; rfl
  | cons c rest ih =>
      intro acc h
      have hc := h c (List.mem_cons_self c rest)
      simp only [scanServices, hc, Bool.false_eq_true, if_false]
      exact ih acc (fun c' hc' => h c' (List.mem_cons_of_mem c hc'))

/-- If every matching certificate carries id `tid`, a scan started with
accumulator `tid` ends with `tid`. -/
theorem scanServices_keep (service_name tid : String) :
    ∀ (certs : List Cert),
      (∀ c ∈ certs, certMatches service_name c = true → c.id = tid) →
      scanServices service_name certs tid = tid := by
  intro certs
  induction certs with
  | nil => intro _; rfl
  | cons c rest ih =>
      intro h
      by_cases hc : certMatches service_name c = true
      · have hcid : c.id = tid := h c (List.mem_cons_self c rest) hc
        simp only [scanServices, hc, if_true, hcid]
        exact ih (fun c' hc' hm => h c' (List.mem_cons_of_mem c hc') hm)
      · simp only [scanServices, hc, if_false]
        exact ih (fun c' hc' hm => h c' (List.mem_cons_of_mem c hc') hm)

/-- If some certificate matches and every matching certificate carries id
`tid`, the scan ends with `tid` regardless of the starting accumulator. -/
theorem scanServices_found (service_name tid : String) :
    ∀ (certs : List Cert) (acc : String),
      (∀ c ∈ certs, certMatches service_name c = true → c.id = tid) →
      (∃ c ∈ certs, certMatches service_name c = true) →
      scanServices service_name certs acc = tid := by
  intro certs
  induction certs with
  | nil => rintro acc _ ⟨c, hc, _⟩; cases hc
  | cons c rest ih =>
      rintro acc hall ⟨d, hd, hdm⟩
      by_cases hc : certMatches service_name c = true
      · have hcid : c.id = tid := hall c (List.mem_cons_self c rest) hc
        simp only [scanServices, hc, if_true, hcid]
        exact scanServices_keep service_name tid rest
          (fun c' hc' hm => hall c' (List.mem_cons_of_mem c hc') hm)
      · rcases List.mem_cons.mp hd with rfl | hd'
        · exact absurd hdm hc
        · simp only [scanServices, hc, if_false]
          exact ih acc (fun c' hc' hm => hall c' (List.mem_cons_of_mem c hc') hm)
            ⟨d, hd', hdm⟩

/-- The scan distributes over list concatenation. -/
theorem scanServices_append (service_name : String) :
    ∀ (l₁ l₂ : List Cert) (acc : String),
      scanServices service_name (l₁ ++ l₂) acc
        = scanServices service_name l₂ (scanServices service_name l₁ acc) := by
  intro l₁
  induction l₁ with
  | nil => intro l₂ acc; rfl
  | cons c rest ih =>
      intro l₂ acc
      simp only [List.cons_append, scanServices]
      exact ih l₂ _

/-- The code's scan agrees with the spec-side previous-binding description. -/
theorem findOldCertId_of_prevIdSpec (certs : List Cert)
    (service_name prevId : String) (h : prevIdSpec certs service_name prevId) :
    findOldCertId certs service_name = prevId := by
  rcases h with ⟨hex, hall⟩ | ⟨hnone, rfl⟩
  · exact scanServices_found service_name prevId certs "" hall hex
  · exact scanServices_no_match service_name certs "" hnone

/-- On the one supported service name the descriptor lookup always succeeds
and appends the DSM7 fragment exactly when the version equals 7. -/
theorem serviceDescriptor_dsm (version : Nat) :
    serviceDescriptor version "DSM Desktop Service"
      = some (dsmDesktopServiceFields ++
          if version = 7 then dsmDesktopServiceDsm7Fields else []) := by
  by_cases h : version = 7 <;>
    simp [serviceDescriptor, servicedatadict, servicedatadictdsm7, h]

/-! ## Claim theorems -/

/-- C1: when the certificate currently bound to the named service (unique in
the snapshot up to id) already carries the requested id, the call performs
zero write POSTs and returns the distinguished already-bound outcome with
status 200, leaving remote state unmutated. -/
theorem C1_already_bound_no_write (certs : List Cert) (version minVersion : Nat)
    (sid : String) (resp : HttpResponse) (cert_id service_name : String)
    (c : Cert) (hmem : c ∈ certs) (hbind : certMatches service_name c = true)
    (hid : c.id = cert_id)
    (huniq : ∀ c' ∈ certs, certMatches service_name c' = true → c'.id = c.id) :
    set_certificate_for_service certs version minVersion sid resp cert_id
        service_name
      = some { writes := [], status := 200,
               result := .message "Certificate already set, aborting" } := by
  have hscan : findOldCertId certs service_name = cert_id :=
    scanServices_found service_name cert_id certs ""
      (fun c' hc' hm => (huniq c' hc' hm).trans hid) ⟨c, hmem, hbind⟩
  simp [set_certificate_for_service, hscan]

/-- Witness for C1: a one-certificate snapshot already bound to the service. -/
theorem C1_already_bound_no_write_witness :
    set_certificate_for_service
        [Cert.mk "111" [ServiceEntry.mk "DSM Desktop Service"]]
        7 2 "sid" (HttpResponse.mk 200 []) "111" "DSM Desktop Service"
      = some { writes := [], status := 200,
               result := .message "Certificate already set, aborting" } :=
  C1_already_bound_no_write
    [Cert.mk "111" [ServiceEntry.mk "DSM Desktop Service"]] 7 2 "sid"
    (HttpResponse.mk 200 []) "111" "DSM Desktop Service"
    (Cert.mk "111" [ServiceEntry.mk "DSM Desktop Service"])
    (List.mem_singleton.mpr rfl) (by decide) rfl (by decide)

/-- C2: when the previously bound id (empty if none is bound) differs from the
requested id, exactly one write POST is made, whose `settings` field is the
compact-JSON single-element list carrying that previous id as `old_id` and the
requested id as `id`. -/
theorem C2_submit_payload (certs : List Cert) (version minVersion : Nat)
    (sid : String) (resp : HttpResponse) (cert_id prevId : String)
    (hspec : prevIdSpec certs "DSM Desktop Service" prevId)
    (hne : prevId ≠ cert_id) :
    set_certificate_for_service certs version minVersion sid resp cert_id
        "DSM Desktop Service"
      = some { writes := [{
                 settings := dumpSettingsPayload
                     (dsmDesktopServiceFields ++
                       if version = 7 then dsmDesktopServiceDsm7Fields else [])
                     prevId cert_id,
                 api := cert_service_api_name,
                 version := toString minVersion,
                 method := "set",
                 sid := sid }],
               status := resp.status_code,
               result := .response resp.body } := by
  have hscan : findOldCertId certs "DSM Desktop Service" = prevId :=
    findOldCertId_of_prevIdSpec certs "DSM Desktop Service" prevId hspec
  simp [set_certificate_for_service, hscan, hne, serviceDescriptor_dsm]

/-- Witness for C2: snapshot bound to "111", requesting "222" on DSM 7. -/
theorem C2_submit_payload_witness :
    set_certificate_for_service
        [Cert.mk "111" [ServiceEntry.mk "DSM Desktop Service"]]
        7 2 "sid" (HttpResponse.mk 200 []) "222" "DSM Desktop Service"
      = some { writes := [{
                 settings := dumpSettingsPayload
                     (dsmDesktopServiceFields ++
                       if 7 = 7 then dsmDesktopServiceDsm7Fields else [])
                     "111" "222",
                 api := cert_service_api_name,
                 version := toString 2,
                 method := "set",
                 sid := "sid" }],
               status := 200,
               result := .response [] } :=
  C2_submit_payload [Cert.mk "111" [ServiceEntry.mk "DSM Desktop Service"]]
    7 2 "sid" (HttpResponse.mk 200 []) "222" "111"
    (by unfold prevIdSpec; decide) (by decide)

/-- C3 counterexample: appliance major version 8 is 7-or-greater, yet the
descriptor built for it is exactly the base fields, which contain neither
`multiple_cert` nor `user_setable` — the code gates on `version == 7`, not
`version >= 7`. -/
theorem C3_counterexample :
    7 ≤ 8 ∧
    serviceDescriptor 8 "DSM Desktop Service" = some dsmDesktopServiceFields ∧
    hasKey dsmDesktopServiceFields "multiple_cert" = false ∧
    hasKey dsmDesktopServiceFields "user_setable" = false := by
  refine ⟨by decide, ?_, by decide, by decide⟩
  simpa using serviceDescriptor_dsm 8

/-- C3 (amended): the binding-update service descriptor includes the extra
attributes `multiple_cert` and `user_setable` if and only if the appliance
major version equals 7 exactly; for every other version the descriptor is
exactly the base fields. -/
theorem C3_version_gate (v : Nat) :
    ((hasKey ((serviceDescriptor v "DSM Desktop Service").getD [])
        "multiple_cert" = true ∧
      hasKey ((serviceDescriptor v "DSM Desktop Service").getD [])
        "user_setable" = true) ↔ v = 7) ∧
    (v ≠ 7 → serviceDescriptor v "DSM Desktop Service"
        = some dsmDesktopServiceFields) ∧
    (v = 7 → serviceDescriptor v "DSM Desktop Service"
        = some (dsmDesktopServiceFields ++ dsmDesktopServiceDsm7Fields)) := by
  by_cases h : v = 7
  · subst h; decide
  · have hd : serviceDescriptor v "DSM Desktop Service"
        = some dsmDesktopServiceFields := by
      simpa [h] using serviceDescriptor_dsm v
    refine ⟨iff_of_false ?_ h, fun _ => hd, fun h7 => absurd h7 h⟩
    rw [hd]
    decide

/-- Witness for C3: both branches of the gate evaluated (version 6 has no
extras, version 7 has them). -/
theorem C3_version_gate_witness :
    serviceDescriptor 6 "DSM Desktop Service" = some dsmDesktopServiceFields ∧
    serviceDescriptor 7 "DSM Desktop Service"
      = some (dsmDesktopServiceFields ++ dsmDesktopServiceDsm7Fields) :=
  ⟨(C3_version_gate 6).2.1 (by decide), (C3_version_gate 7).2.2 rfl⟩

/-- C4 counterexample: two certificates ("A" first, "B" second) both bind the
service; the scan yields the LAST match "B", not the first "A", and a bind
request for "A" (the first match's id) therefore submits one write instead of
taking the already-bound branch the claim predicts. -/
theorem C4_counterexample :
    findOldCertId
        [Cert.mk "A" [ServiceEntry.mk "DSM Desktop Service"],
         Cert.mk "B" [ServiceEntry.mk "DSM Desktop Service"]]
        "DSM Desktop Service" = "B" ∧
    ("B" : String) ≠ "A" ∧
    Option.map (fun o => o.writes.length)
        (set_certificate_for_service
          [Cert.mk "A" [ServiceEntry.mk "DSM Desktop Service"],
           Cert.mk "B" [ServiceEntry.mk "DSM Desktop Service"]]
          7 2 "sid" (HttpResponse.mk 200 []) "A" "DSM Desktop Service")
      = some 1 := by
  refine ⟨by decide, by decide, rfl⟩

/-- C4 (amended): the scan selects the certificate id of the LAST match
encountered in registry order (the inner `break` only leaves the services of
one certificate; the outer loop keeps overwriting `old_certid`), that id
feeds both the already-bound guard and `old_id`, and later matches are not
treated as errors. -/
theorem C4_last_match (l₁ l₂ : List Cert) (c : Cert)
    (version minVersion : Nat) (sid : String) (resp : HttpResponse)
    (service_name : String)
    (hc : certMatches service_name c = true)
    (h₂ : ∀ c' ∈ l₂, certMatches service_name c' = false) :
    findOldCertId (l₁ ++ c :: l₂) service_name = c.id ∧
    set_certificate_for_service (l₁ ++ c :: l₂) version minVersion sid resp
        c.id service_name
      = some { writes := [], status := 200,
               result := .message "Certificate already set, aborting" } := by
  have hscan : findOldCertId (l₁ ++ c :: l₂) service_name = c.id := by
    unfold findOldCertId
    rw [scanServices_append]
    simp only [scanServices, hc, if_true]
    exact scanServices_no_match service_name l₂ c.id h₂
  exact ⟨hscan, by simp [set_certificate_for_service, hscan]⟩

/-- Witness for C4: a duplicate-binding snapshot where the guard fires on the
second certificate's id. -/
theorem C4_last_match_witness :
    findOldCertId
        [Cert.mk "A" [ServiceEntry.mk "DSM Desktop Service"],
         Cert.mk "B" [ServiceEntry.mk "DSM Desktop Service"]]
        "DSM Desktop Service"
      = (Cert.mk "B" [ServiceEntry.mk "DSM Desktop Service"]).id ∧
    set_certificate_for_service
        [Cert.mk "A" [ServiceEntry.mk "DSM Desktop Service"],
         Cert.mk "B" [ServiceEntry.mk "DSM Desktop Service"]]
        7 2 "sid" (HttpResponse.mk 200 [])
        (Cert.mk "B" [ServiceEntry.mk "DSM Desktop Service"]).id
        "DSM Desktop Service"
      = some { writes := [], status := 200,
               result := .message "Certificate already set, aborting" } :=
  C4_last_match [Cert.mk "A" [ServiceEntry.mk "DSM Desktop Service"]] []
    (Cert.mk "B" [ServiceEntry.mk "DSM Desktop Service"])
    7 2 "sid" (HttpResponse.mk 200 []) "DSM Desktop Service"
    (by decide) (by decide)

/-- C5: `export_cert` returns `None` on every non-200 status (it never raises
and never returns a partial buffer), and on status 200 it returns a byte
buffer holding the full raw body with position 0. -/
theorem C5_export_behavior (result : RawResponse) :
    (result.status_code ≠ 200 → export_cert result = .returns none) ∧
    (result.status_code = 200 →
      export_cert result
        = .returns (some (BytesIOBuf.mk result.content 0))) := by
  constructor <;> intro h <;> simp [export_cert, h]

/-- Witness for C5: a 404 yields `None`, a 200 yields the full body at
position 0. -/
theorem C5_export_behavior_witness :
    export_cert (RawResponse.mk 404 [7, 8]) = .returns none ∧
    export_cert (RawResponse.mk 200 [7, 8])
      = .returns (some (BytesIOBuf.mk [7, 8] 0)) :=
  ⟨(C5_export_behavior (RawResponse.mk 404 [7, 8])).1 (by decide),
   (C5_export_behavior (RawResponse.mk 200 [7, 8])).2 rfl⟩

/-- C6: the multipart request carries an `inter_cert` part exactly when a
(non-empty) CA-chain path is supplied; with no CA path the files are exactly
the `key` and `cert` parts — no `inter_cert` key at all, empty or otherwise.
`abspath` is the external path resolver, which maps non-empty paths to
non-empty absolute paths. -/
theorem C6_inter_cert_iff_ca (abspath : String → String)
    (serv_key ser_cert : String) (ca_cert : Option String)
    (set_as_default : Bool) (cert_id desc : Option String)
    (resp : HttpResponse)
    (habs : ∀ s, s ≠ "" → abspath s ≠ "")
    (hca : ca_cert = none ∨ ∃ s, ca_cert = some s ∧ s ≠ "") :
    (ca_cert ≠ none →
      hasFilePart (upload_cert abspath serv_key ser_cert ca_cert set_as_default
          cert_id desc resp).files "inter_cert" = true) ∧
    (ca_cert = none →
      (upload_cert abspath serv_key ser_cert ca_cert set_as_default cert_id
          desc resp).files
        = [("key", FilePart.mk (abspath serv_key) x_x509),
           ("cert", FilePart.mk (abspath ser_cert) x_x509)]) := by
  rcases hca with rfl | ⟨s, rfl, hs⟩
  · exact ⟨fun h => absurd rfl h, fun _ => by simp [upload_cert]⟩
  · refine ⟨fun _ => ?_, fun h => by cases h⟩
    have h2 := habs s hs
    simp [upload_cert, hs, h2, hasFilePart]

/-- Witness for C6: with CA path "ca" the `inter_cert` part is present; with
no CA path the files are exactly the two base parts. -/
theorem C6_inter_cert_iff_ca_witness :
    hasFilePart (upload_cert id "k" "c" (some "ca") true none none
        (HttpResponse.mk 200 [])).files "inter_cert" = true ∧
    (upload_cert id "k" "c" none true none none
        (HttpResponse.mk 200 [])).files
      = [("key", FilePart.mk (id "k") x_x509),
         ("cert", FilePart.mk (id "c") x_x509)] :=
  ⟨(C6_inter_cert_iff_ca id "k" "c" (some "ca") true none none
      (HttpResponse.mk 200 []) (fun _ h => h)
      (Or.inr ⟨"ca", rfl, by decide⟩)).1 (by simp),
   (C6_inter_cert_iff_ca id "k" "c" none true none none
      (HttpResponse.mk 200 []) (fun _ h => h) (Or.inl rfl)).2 rfl⟩

/-- C7: a single string id is normalized to a one-element collection before
submission; a list of ids is submitted in order with all elements; in both
cases the collection reaches the `ids` form field as a JSON-encoded array
string (`dumpStrList`), not as a native array. -/
theorem C7_delete_ids (s : String) (l : List String) (hl : l ≠ []) :
    delete_certificate (.str s) = delete_certificate (.list [s]) ∧
    delete_certificate (.list l)
      = .request [("version", "1"), ("method", "delete"),
                  ("ids", dumpStrList l)] := by
  refine ⟨rfl, ?_⟩
  simp [delete_certificate, base_certificate_methods, available_method,
        optStrTruthy, idsTruthy, hl, dumpStrOrList]

/-- Witness for C7: deleting `["a", "b"]` submits the literal JSON array
string with both elements in order. -/
theorem C7_delete_ids_witness :
    delete_certificate (.str "x") = delete_certificate (.list ["x"]) ∧
    delete_certificate (.list ["a", "b"])
      = .request [("version", "1"), ("method", "delete"),
                  ("ids", "[\"a\", \"b\"]")] :=
  C7_delete_ids "x" ["a", "b"] (by decide)

/-- C8 counterexample: with the empty certificate id, `set_default_cert` does
not fail — it still dispatches a request (carrying only the base `version` and
`method` fields), so no `InvalidArgument` outcome and no absence of a remote
submission can be observed. -/
theorem C8_counterexample :
    set_default_cert "" = .request [("version", "1"), ("method", "set")] := rfl

/-- C8 (amended): a missing/empty certificate id is NOT rejected: the call
still performs exactly one remote submission whose parameters are only the
base `version` and `method` fields (no `id`, `as_default` or `desc`), and no
error outcome is produced. -/
theorem C8_empty_id_still_submits (cert_id : String) (h : cert_id = "") :
    set_default_cert cert_id
      = .request [("version", "1"), ("method", "set")] := by
  subst h; rfl

/-- Witness for C8 at the empty string. -/
theorem C8_empty_id_still_submits_witness :
    set_default_cert "" = .request [("version", "1"), ("method", "set")] :=
  C8_empty_id_still_submits "" rfl

/-- C9 counterexample: on a 500 response whose body carries `success:false`,
`upload_cert` returns the pair normally (constructor `returns`) instead of
raising any `RemoteError`. -/
theorem C9_counterexample :
    (upload_cert id "k" "c" none true none none
        (HttpResponse.mk 500 [("success", .jbool false)])).result
      = .returns (500, [("success", .jbool false)]) := rfl

/-- C9 (amended): for every response with a non-200 status or a body whose
`success` field is `false`, `upload_cert` returns normally with the pair
`(status, decoded body)`; the function contains no raise path, so no
`RemoteError` is ever produced and callers must inspect the pair. -/
theorem C9_upload_returns_normally (abspath : String → String)
    (serv_key ser_cert : String) (ca_cert : Option String)
    (set_as_default : Bool) (cert_id desc : Option String)
    (resp : HttpResponse)
    (_hfail : resp.status_code ≠ 200 ∨
      List.lookup "success" resp.body = some (.jbool false)) :
    (upload_cert abspath serv_key ser_cert ca_cert set_as_default cert_id desc
        resp).result = .returns (resp.status_code, resp.body) := by
  simp [upload_cert]

/-- Witness for C9: the 500/`success:false` response yields the returned
pair. -/
theorem C9_upload_returns_normally_witness :
    (upload_cert id "k" "c" none true none none
        (HttpResponse.mk 500 [("success", .jbool false)])).result
      = .returns (500, [("success", .jbool false)]) :=
  C9_upload_returns_normally id "k" "c" none true none none
    (HttpResponse.mk 500 [("success", .jbool false)]) (Or.inl (by decide))

/-- C10: whenever a call takes the already-bound branch its returned pair is
exactly `(200, "Certificate already set, aborting")` with the literal string
message (and no writes), every other successful return carries the decoded
response dictionary, and the two result constructors are distinct, so the
second component's shape distinguishes the already-bound outcome from a
submitted update. -/
theorem C10_already_bound_return_shape (certs : List Cert)
    (version minVersion : Nat) (sid : String) (resp : HttpResponse)
    (cert_id service_name msg : String) (body : List (String × JVal))
    (out : BindOutcome)
    (hout : set_certificate_for_service certs version minVersion sid resp
        cert_id service_name = some out) :
    (findOldCertId certs service_name = cert_id →
      out = { writes := [], status := 200,
              result := .message "Certificate already set, aborting" }) ∧
    (findOldCertId certs service_name ≠ cert_id →
      out.result = .response resp.body) ∧
    CertServiceResult.message msg ≠ .response body := by
  refine ⟨?_, ?_, fun h => CertServiceResult.noConfusion h⟩
  · intro heq
    simp [set_certificate_for_service, heq] at hout
    exact hout.symm
  · intro hne
    simp [set_certificate_for_service, hne] at hout
    cases hdesc : serviceDescriptor version service_name with
    | none => rw [hdesc] at hout; cases hout
    | some fields =>
        rw [hdesc] at hout
        have h2 := Option.some.inj hout
        rw [← h2]

/-- Witness for C10: a snapshot already bound to "X" takes the message branch
and the message constructor differs from the response constructor. -/
theorem C10_already_bound_return_shape_witness :
    (findOldCertId [Cert.mk "X" [ServiceEntry.mk "DSM Desktop Service"]]
        "DSM Desktop Service" = "X" →
      ({ writes := [], status := 200,
         result := .message "Certificate already set, aborting" } : BindOutcome)
        = { writes := [], status := 200,
            result := .message "Certificate already set, aborting" }) ∧
    (findOldCertId [Cert.mk "X" [ServiceEntry.mk "DSM Desktop Service"]]
        "DSM Desktop Service" ≠ "X" →
      ({ writes := [], status := 200,
         result := .message "Certificate already set, aborting" } :
         BindOutcome).result = .response []) ∧
    CertServiceResult.message "m" ≠ .response [] :=
  C10_already_bound_return_shape
    [Cert.mk "X" [ServiceEntry.mk "DSM Desktop Service"]]
    7 2 "sid" (HttpResponse.mk 200 []) "X" "DSM Desktop Service" "m" []
    { writes := [], status := 200,
      result := .message "Certificate already set, aborting" } rfl
